import Mathlib

/-!
Verification development for the SelfPomodoro optimization server
(`src/optim`): a shallow embedding of `app/services/optimize/bayesian_optimizer.py`,
`app/services/dynamodb/dynamodb_handler.py` and the two DynamoDB endpoints of
`app/main.py`, together with theorems settling the frozen claims about them.

Numeric values are modelled as rationals (`ℚ`); the DynamoDB number-as-string
serialization layer is modelled as the identity on numeric values.  The parts
of the `skopt` library that the repository calls (`Optimizer.tell` / `ask`)
are not in the repository source; they are modelled from the spec where a
definition explicitly says so.
-/

namespace SelfPomodoro

/-- Dimension of a parameter space: `skopt` real interval `(low, high)` or
`Integer(low, high)`. -/
inductive Dimension where
| Continuous (low high : ℚ)
| Integer (low high : ℤ)
deriving DecidableEq, Repr

/-- State of a `skopt.Optimizer` instance as used by `BayesianOptimizer`:
the declared dimensions, the `n_initial_points` budget, the observations
passed to `tell` so far, and the pseudo-random generator state (the source
passes no `random_state`, so the seed stands for the ambient RNG state at
construction time). -/
structure OptimizerState where
  dims : List Dimension
  nInitialPoints : ℕ
  toldXs : List (List ℚ)
  toldYs : List ℚ
  seed : ℕ
deriving DecidableEq, Repr

/-- Modelled from the spec: pseudo-random generator state update for the
space-filling exploration draws (a small LCG; the spec only requires a
deterministic pseudo-random source). -/
def lcgNext (s : ℕ) : ℕ := (75 * s + 74) % 65537

/-- Modelled from the spec: a pseudo-random fraction in `[0, 1)` derived from
the generator state. -/
def unitFrac (s : ℕ) : ℚ := ((s % 65536 : ℕ) : ℚ) / 65536

/-- Modelled from the spec: one pseudo-random coordinate — uniform over
`[low, high]` for continuous dimensions, uniform over the integer range for
integer dimensions. -/
def randomCoord (d : Dimension) (s : ℕ) : ℚ :=
  match d with
  | .Continuous low high => low + unitFrac s * (high - low)
  | .Integer low high => ((low + ((s % (high - low + 1).toNat : ℕ) : ℤ) : ℤ) : ℚ)

/-- Modelled from the spec: a pseudo-random point of the space, one coordinate
per dimension, stepping the generator between coordinates. -/
def randomPoint : List Dimension → ℕ → List ℚ
  | [], _ => []
  | d :: ds, s => randomCoord d s :: randomPoint ds (lcgNext s)

/-- Nearest-integer rounding used for integer dimensions after candidate
selection. -/
def roundNearest (x : ℚ) : ℤ := ⌊x + 1 / 2⌋

/-- Modelled from the spec: dimension typing of a selected candidate
coordinate — continuous dimensions are clipped to `[low, high]`, integer
dimensions are rounded to the nearest integer within bounds. -/
def clipCoord (d : Dimension) (x : ℚ) : ℚ :=
  match d with
  | .Continuous low high => max low (min high x)
  | .Integer low high => ((max low (min high (roundNearest x)) : ℤ) : ℚ)

/-- Modelled from the spec: dimension typing applied coordinate-wise. -/
def clipPoint (dims : List Dimension) (xs : List ℚ) : List ℚ :=
  List.zipWith clipCoord dims xs

/-- Modelled from the spec: the location of the raw Expected-Improvement
maximizer in the model phase.  Its exact value is irrelevant to every claim
(only its typing and determinism are used), so it is abstracted as a
deterministic pseudo-random draw from the space. -/
def modelCandidate (s : OptimizerState) : List ℚ :=
  randomPoint s.dims (lcgNext (s.seed + 2 * s.toldXs.length + 1))

/-- Modelled from the spec: `skopt.Optimizer.ask` — while fewer than
`n_initial_points` observations have been told, draw a pseudo-random point
from the space (bootstrap phase); afterwards select the Expected-Improvement
candidate and apply dimension typing (model phase). -/
def ask (s : OptimizerState) : List ℚ :=
  if s.toldXs.length < s.nInitialPoints then
    randomPoint s.dims (lcgNext (s.seed + 2 * s.toldXs.length))
  else
    clipPoint s.dims (modelCandidate s)

/-- Modelled from the spec: `skopt.Optimizer.tell` — appends the observations
to the internal history; once at least `n_initial_points` points have been
told it also fits the GP surrogate to all told pairs, whose numeric outcome
is represented by the `fitOutcome` parameter (`FitError` possible). -/
def tellStep (s : OptimizerState) (xs : List (List ℚ)) (ys : List ℚ)
    (fitOutcome : Except String Unit) : Except String OptimizerState :=
  let s1 : OptimizerState :=
    { s with toldXs := s.toldXs ++ xs, toldYs := s.toldYs ++ ys }
  if s1.nInitialPoints ≤ s1.toldXs.length then
    match fitOutcome with
    | .ok _ => .ok s1
    | .error e => .error e
  else
    .ok s1

/-- Error message raised by `BayesianOptimizer.__init__` for an unknown
optimization target (the source raises `ValueError`). -/
def unknownScopeMsg (target : String) : String :=
  "invalid optimization target: " ++ target

/-- Wrapping applied by the `except` clause of `BayesianOptimizer.__init__`
before re-raising. -/
def initFailMsg (e : String) : String :=
  "optimizer construction failed: " ++ e

/-- Embeds `BayesianOptimizer.__init__`: the scope registry.  The name
`round` is mapped to the space `[(15.0, 60.0), (3.0, 20.0)]` and the name
`session` to `[(60.0, 480.0), (10.0, 60.0), Integer(1, 10)]`, each with
`n_initial_points=10` and the EI acquisition; any other name raises (the
`ValueError` is caught and re-raised wrapped). -/
def mkBayesianOptimizer (target : String) (seed : ℕ) : Except String OptimizerState :=
  if target = "round" then
    .ok { dims := [.Continuous 15 60, .Continuous 3 20],
          nInitialPoints := 10, toldXs := [], toldYs := [], seed := seed }
  else if target = "session" then
    .ok { dims := [.Continuous 60 480, .Continuous 10 60, .Integer 1 10],
          nInitialPoints := 10, toldXs := [], toldYs := [], seed := seed }
  else
    .error (initFailMsg (unknownScopeMsg target))

/-- Embeds `BayesianOptimizer.optimize_round`: negates the objective values,
tells the optimizer the (inputs, negated objective) pairs, and asks for the
next point; any exception from the underlying optimizer is re-raised
wrapped. -/
def optimize_round (opt : OptimizerState) (explanatory_variable : List (List ℚ))
    (objective_variable : List ℚ) (fitOutcome : Except String Unit) :
    Except String (OptimizerState × List ℚ) :=
  let negative_objective := objective_variable.map (fun v => -v)
  match tellStep opt explanatory_variable negative_objective fitOutcome with
  | .error e => .error ("round optimization failed: " ++ e)
  | .ok opt1 => .ok (opt1, ask opt1)

/-- Embeds `BayesianOptimizer.optimize_session`: identical to the round case
except for the wrapping message and the arity of the returned point. -/
def optimize_session (opt : OptimizerState) (explanatory_variable : List (List ℚ))
    (objective_variable : List ℚ) (fitOutcome : Except String Unit) :
    Except String (OptimizerState × List ℚ) :=
  let negative_objective := objective_variable.map (fun v => -v)
  match tellStep opt explanatory_variable negative_objective fitOutcome with
  | .error e => .error ("session optimization failed: " ++ e)
  | .ok opt1 => .ok (opt1, ask opt1)

/-- Row of the `round_optimization_logs` table (key `(user_id, time)`; the
other attributes are present only when the corresponding `put_round_data`
argument was not `None`). -/
structure RoundItem where
  user_id : String
  time : String
  work_time : Option ℚ
  break_time : Option ℚ
  focus_score : Option ℚ
  timestamp : Option String
deriving DecidableEq, Repr

/-- Row of the `session_optimization_logs` table. -/
structure SessionItem where
  user_id : String
  time : String
  total_work_time : Option ℚ
  break_time : Option ℚ
  round_count : Option ℚ
  avg_focus_score : Option ℚ
  timestamp : Option String
deriving DecidableEq, Repr

/-- Embeds `DynamoDBHandler.put_round_data`: DynamoDB `put_item` — the item
replaces an existing item with the same `(user_id, time)` key, otherwise it
is stored as a new row. -/
def putRound (tbl : List RoundItem) (it : RoundItem) : List RoundItem :=
  if tbl.any (fun r => r.user_id = it.user_id ∧ r.time = it.time) then
    tbl.map (fun r => if r.user_id = it.user_id ∧ r.time = it.time then it else r)
  else
    tbl ++ [it]

/-- Embeds `DynamoDBHandler.put_session_data` (same `put_item` semantics). -/
def putSession (tbl : List SessionItem) (it : SessionItem) : List SessionItem :=
  if tbl.any (fun r => r.user_id = it.user_id ∧ r.time = it.time) then
    tbl.map (fun r => if r.user_id = it.user_id ∧ r.time = it.time then it else r)
  else
    tbl ++ [it]

/-- Embeds the query branch of `DynamoDBHandler.get_round_data` (no `time`
argument): all rows of the user.  DynamoDB returns them in ascending
sort-key (`time`) order; the model keeps the table in insertion order, which
coincides with time order since the endpoints only store rows under the
strictly increasing `datetime.now()` timestamps. -/
def queryRound (tbl : List RoundItem) (uid : String) : List RoundItem :=
  tbl.filter (fun r => r.user_id = uid)

/-- Embeds the query branch of `DynamoDBHandler.get_session_data`. -/
def querySession (tbl : List SessionItem) (uid : String) : List SessionItem :=
  tbl.filter (fun r => r.user_id = uid)

/-- Embeds the `item.get(col)` lookups performed by
`make_chosen_data_list` on a converted round row (only the numeric columns
are ever requested by the callers). -/
def roundGet (it : RoundItem) (col : String) : Option ℚ :=
  if col = "work_time" then it.work_time
  else if col = "break_time" then it.break_time
  else if col = "focus_score" then it.focus_score
  else none

/-- Embeds the `item.get(col)` lookups on a converted session row. -/
def sessionGet (it : SessionItem) (col : String) : Option ℚ :=
  if col = "total_work_time" then it.total_work_time
  else if col = "break_time" then it.break_time
  else if col = "round_count" then it.round_count
  else if col = "avg_focus_score" then it.avg_focus_score
  else none

/-- Embeds the row loop of `DynamoDBHandler.make_chosen_data_list`: for each
item keep the values of the requested columns that are present in the item
(missing columns are skipped, not padded), and drop items for which the
resulting row is empty. -/
def chosenRows (items : List RoundItem) (columns : List String) : List (List ℚ) :=
  (items.map (fun it => columns.filterMap (roundGet it))).filter (fun r => !r.isEmpty)

/-- Embeds the row loop of `DynamoDBHandler.make_chosen_session_data_list`. -/
def chosenSessionRows (items : List SessionItem) (columns : List String) : List (List ℚ) :=
  (items.map (fun it => columns.filterMap (sessionGet it))).filter (fun r => !r.isEmpty)

/-- Result shape of the chosen-data helpers: a flat list for a single
requested column, a list of rows otherwise. -/
inductive ColData where
| flat (xs : List ℚ)
| rows (xss : List (List ℚ))
deriving DecidableEq, Repr

/-- Embeds `DynamoDBHandler.make_chosen_data_list` (query branch, as used by
the endpoints): query the user rows, build the per-item chosen rows, and
flatten to a one-dimensional list when exactly one column was requested. -/
def make_chosen_data_list (tbl : List RoundItem) (uid : String)
    (columns : List String) : ColData :=
  let result := chosenRows (queryRound tbl uid) columns
  if columns.length = 1 then .flat (result.map (fun r => r.headD 0))
  else .rows result

/-- Embeds `DynamoDBHandler.make_chosen_session_data_list` (query branch). -/
def make_chosen_session_data_list (tbl : List SessionItem) (uid : String)
    (columns : List String) : ColData :=
  let result := chosenSessionRows (querySession tbl uid) columns
  if columns.length = 1 then .flat (result.map (fun r => r.headD 0))
  else .rows result

/-- Models the Python `int()` conversion applied to `round_count` in the
endpoint responses: truncation toward zero. -/
def pyInt (q : ℚ) : ℤ :=
  if 0 ≤ q then ⌊q⌋ else ⌈q⌉

/-- Response body of the round endpoints. -/
structure RoundResponse where
  work_time : ℚ
  break_time : ℚ
deriving DecidableEq, Repr

/-- Response body of the session endpoints (`round_count` passes through
`int()`). -/
structure SessionResponse where
  total_work_time : ℚ
  break_time : ℚ
  round_count : ℤ
deriving DecidableEq, Repr

/-- Embeds `dynamo_round_optimizer` of `app/main.py`.  `now` stands for the
`datetime.now().isoformat()` taken in the empty-history branch and `now2`
for the one taken before storing the new proposal; `seed` is the ambient RNG
state and `fitOutcome` the numeric outcome of the surrogate fit (see
`tellStep`).  Faithful to the source, the `put_round_data` call recording
the incoming focus score sits inside the empty-history `else` branch, where
`latest_data` is the empty Python list, so that branch evaluates
`[].get(...)` and raises `AttributeError`; in the non-empty branch no focus
score is stored at all. -/
def dynamo_round_optimizer (tbl : List RoundItem) (uid : String)
    (focus_score : ℚ) (now now2 : String) (seed : ℕ)
    (fitOutcome : Except String Unit) :
    Except String (List RoundItem × RoundResponse) :=
  let latest_data := queryRound tbl uid
  match latest_data.getLast? with
  | none =>
      let _latest_time := now
      .error "AttributeError: list object has no attribute get"
  | some _latest =>
      let explanatory_variable :=
        chosenRows (queryRound tbl uid) ["work_time", "break_time"]
      let objective_variable :=
        (chosenRows (queryRound tbl uid) ["focus_score"]).map (fun r => r.headD 0)
      match mkBayesianOptimizer "round" seed with
      | .error e => .error e
      | .ok opt =>
        match optimize_round opt explanatory_variable objective_variable fitOutcome with
        | .error e => .error e
        | .ok (_opt1, proposal) =>
          let work_time := proposal.headD 0
          let break_time := (proposal.drop 1).headD 0
          let tbl2 := putRound tbl
            { user_id := uid, time := now2, work_time := some work_time,
              break_time := some break_time, focus_score := none, timestamp := none }
          .ok (tbl2, { work_time := work_time, break_time := break_time })

/-- Embeds `dynamo_session_optimizer` of `app/main.py`: records the incoming
average focus score against the latest existing row (reusing its `time` key;
with missing input fields defaulting to `None` when there is no prior row),
fetches the history, optimizes, and stores the new proposal under a fresh
timestamp. -/
def dynamo_session_optimizer (tbl : List SessionItem) (uid : String)
    (avg_focus_score : ℚ) (now now2 : String) (seed : ℕ)
    (fitOutcome : Except String Unit) :
    Except String (List SessionItem × SessionResponse) :=
  let latest_data := (querySession tbl uid).getLast?
  let latest_time := match latest_data with
    | some it => it.time
    | none => now
  let tbl1 := putSession tbl
    { user_id := uid, time := latest_time,
      total_work_time := latest_data.bind (fun it => it.total_work_time),
      break_time := latest_data.bind (fun it => it.break_time),
      round_count := latest_data.bind (fun it => it.round_count),
      avg_focus_score := some avg_focus_score, timestamp := none }
  let explanatory_variable :=
    chosenSessionRows (querySession tbl1 uid) ["total_work_time", "break_time", "round_count"]
  let objective_variable :=
    (chosenSessionRows (querySession tbl1 uid) ["avg_focus_score"]).map (fun r => r.headD 0)
  match mkBayesianOptimizer "session" seed with
  | .error e => .error e
  | .ok opt =>
    match optimize_session opt explanatory_variable objective_variable fitOutcome with
    | .error e => .error e
    | .ok (_opt1, proposal) =>
      let total_work_time := proposal.headD 0
      let break_time := (proposal.drop 1).headD 0
      let round_count := (proposal.drop 2).headD 0
      let tbl2 := putSession tbl1
        { user_id := uid, time := now2, total_work_time := some total_work_time,
          break_time := some break_time, round_count := some round_count,
          avg_focus_score := none, timestamp := none }
      .ok (tbl2, { total_work_time := total_work_time, break_time := break_time,
                   round_count := pyInt round_count })

/-- Scope construction in the context of the two stores:
`BayesianOptimizer.__init__` performs no storage access, so the stores are
returned unchanged alongside the construction result. -/
def constructOptimizer (target : String) (seed : ℕ) (roundTbl : List RoundItem)
    (sessionTbl : List SessionItem) :
    Except String OptimizerState × List RoundItem × List SessionItem :=
  (mkBayesianOptimizer target seed, roundTbl, sessionTbl)

/-! Helper lemmas. -/

lemma mk_round (seed : ℕ) :
    mkBayesianOptimizer "round" seed =
      .ok { dims := [.Continuous 15 60, .Continuous 3 20],
            nInitialPoints := 10, toldXs := [], toldYs := [], seed := seed } := rfl

lemma mk_session (seed : ℕ) :
    mkBayesianOptimizer "session" seed =
      .ok { dims := [.Continuous 60 480, .Continuous 10 60, .Integer 1 10],
            nInitialPoints := 10, toldXs := [], toldYs := [], seed := seed } := rfl

lemma unitFrac_nonneg (s : ℕ) : 0 ≤ unitFrac s := by
  unfold unitFrac; positivity

lemma unitFrac_le_one (s : ℕ) : unitFrac s ≤ 1 := by
  unfold unitFrac
  rw [div_le_one (by norm_num)]
  exact_mod_cast le_of_lt (Nat.mod_lt s (by norm_num))

lemma randomCoord_cont_bounds (low high : ℚ) (s : ℕ) (h : low ≤ high) :
    low ≤ randomCoord (.Continuous low high) s ∧
      randomCoord (.Continuous low high) s ≤ high := by
  simp only [randomCoord]
  constructor
  · nlinarith [unitFrac_nonneg s, unitFrac_le_one s]
  · nlinarith [unitFrac_nonneg s, unitFrac_le_one s]

lemma randomCoord_int_bounds (low high : ℤ) (s : ℕ) (h : low ≤ high) :
    ∃ z : ℤ, randomCoord (.Integer low high) s = (z : ℚ) ∧ low ≤ z ∧ z ≤ high := by
  refine ⟨low + ((s % (high - low + 1).toNat : ℕ) : ℤ), by simp [randomCoord], ?_, ?_⟩
  · have : (0 : ℤ) ≤ ((s % (high - low + 1).toNat : ℕ) : ℤ) := Int.natCast_nonneg _
    omega
  · have hn : 0 < (high - low + 1).toNat := by omega
    have h1 : s % (high - low + 1).toNat < (high - low + 1).toNat := Nat.mod_lt s hn
    have h2 : ((high - low + 1).toNat : ℤ) = high - low + 1 := Int.toNat_of_nonneg (by omega)
    omega

lemma clipCoord_cont_bounds (low high x : ℚ) (h : low ≤ high) :
    low ≤ clipCoord (.Continuous low high) x ∧ clipCoord (.Continuous low high) x ≤ high := by
  simp only [clipCoord]
  exact ⟨le_max_left _ _, max_le h (min_le_left _ _)⟩

lemma clipCoord_int_bounds (low high : ℤ) (x : ℚ) (h : low ≤ high) :
    ∃ z : ℤ, clipCoord (.Integer low high) x = (z : ℚ) ∧ low ≤ z ∧ z ≤ high := by
  exact ⟨max low (min high (roundNearest x)), by simp [clipCoord],
    le_max_left _ _, max_le h (min_le_left _ _)⟩

lemma ask_round_shape (s : OptimizerState)
    (hd : s.dims = [.Continuous 15 60, .Continuous 3 20]) :
    ∃ a b : ℚ, ask s = [a, b] ∧ 15 ≤ a ∧ a ≤ 60 ∧ 3 ≤ b ∧ b ≤ 20 := by
  unfold ask
  by_cases hc : s.toldXs.length < s.nInitialPoints
  · rw [if_pos hc, hd]
    simp only [randomPoint]
    obtain ⟨ha1, ha2⟩ := randomCoord_cont_bounds 15 60 (lcgNext (s.seed + 2 * s.toldXs.length)) (by norm_num)
    obtain ⟨hb1, hb2⟩ := randomCoord_cont_bounds 3 20 (lcgNext (lcgNext (s.seed + 2 * s.toldXs.length))) (by norm_num)
    exact ⟨_, _, rfl, ha1, ha2, hb1, hb2⟩
  · rw [if_neg hc]
    simp only [modelCandidate, hd, randomPoint, clipPoint, List.zipWith]
    obtain ⟨ha1, ha2⟩ := clipCoord_cont_bounds 15 60
      (randomCoord (.Continuous 15 60) (lcgNext (s.seed + 2 * s.toldXs.length + 1))) (by norm_num)
    obtain ⟨hb1, hb2⟩ := clipCoord_cont_bounds 3 20
      (randomCoord (.Continuous 3 20) (lcgNext (lcgNext (s.seed + 2 * s.toldXs.length + 1)))) (by norm_num)
    exact ⟨_, _, rfl, ha1, ha2, hb1, hb2⟩

lemma ask_session_shape (s : OptimizerState)
    (hd : s.dims = [.Continuous 60 480, .Continuous 10 60, .Integer 1 10]) :
    ∃ (a b : ℚ) (z : ℤ), ask s = [a, b, (z : ℚ)] ∧
      60 ≤ a ∧ a ≤ 480 ∧ 10 ≤ b ∧ b ≤ 60 ∧ 1 ≤ z ∧ z ≤ 10 := by
  unfold ask
  by_cases hc : s.toldXs.length < s.nInitialPoints
  · rw [if_pos hc, hd]
    simp only [randomPoint]
    obtain ⟨ha1, ha2⟩ := randomCoord_cont_bounds 60 480 (lcgNext (s.seed + 2 * s.toldXs.length)) (by norm_num)
    obtain ⟨hb1, hb2⟩ := randomCoord_cont_bounds 10 60 (lcgNext (lcgNext (s.seed + 2 * s.toldXs.length))) (by norm_num)
    obtain ⟨z, hz, hz1, hz2⟩ := randomCoord_int_bounds 1 10 (lcgNext (lcgNext (lcgNext (s.seed + 2 * s.toldXs.length)))) (by norm_num)
    exact ⟨_, _, z, by rw [hz], ha1, ha2, hb1, hb2, hz1, hz2⟩
  · rw [if_neg hc]
    simp only [modelCandidate, hd, randomPoint, clipPoint, List.zipWith]
    obtain ⟨ha1, ha2⟩ := clipCoord_cont_bounds 60 480
      (randomCoord (.Continuous 60 480) (lcgNext (s.seed + 2 * s.toldXs.length + 1))) (by norm_num)
    obtain ⟨hb1, hb2⟩ := clipCoord_cont_bounds 10 60
      (randomCoord (.Continuous 10 60) (lcgNext (lcgNext (s.seed + 2 * s.toldXs.length + 1)))) (by norm_num)
    obtain ⟨z, hz, hz1, hz2⟩ := clipCoord_int_bounds 1 10
      (randomCoord (.Integer 1 10) (lcgNext (lcgNext (lcgNext (s.seed + 2 * s.toldXs.length + 1))))) (by norm_num)
    exact ⟨_, _, z, by rw [hz], ha1, ha2, hb1, hb2, hz1, hz2⟩

lemma pyInt_intCast (z : ℤ) : pyInt ((z : ℤ) : ℚ) = z := by
  unfold pyInt
  split
  · exact Int.floor_intCast z
  · exact Int.ceil_intCast z

lemma tellStep_ok (s : OptimizerState) (xs : List (List ℚ)) (ys : List ℚ) :
    tellStep s xs ys (.ok ()) =
      .ok { s with toldXs := s.toldXs ++ xs, toldYs := s.toldYs ++ ys } := by
  simp only [tellStep, ite_self]

lemma tellStep_eq_ok (s : OptimizerState) (xs : List (List ℚ)) (ys : List ℚ)
    (fo : Except String Unit) (s1 : OptimizerState)
    (h : tellStep s xs ys fo = .ok s1) :
    s1 = { s with toldXs := s.toldXs ++ xs, toldYs := s.toldYs ++ ys } := by
  simp only [tellStep] at h
  split at h
  · split at h
    · exact (Except.ok.inj h).symm
    · exact Except.noConfusion h
  · exact (Except.ok.inj h).symm

lemma optimize_round_eq_ok (opt : OptimizerState) (X : List (List ℚ)) (y : List ℚ)
    (fo : Except String Unit) (o1 : OptimizerState) (p : List ℚ)
    (h : optimize_round opt X y fo = .ok (o1, p)) :
    o1 = { opt with toldXs := opt.toldXs ++ X,
                    toldYs := opt.toldYs ++ y.map (fun v => -v) } ∧ p = ask o1 := by
  simp only [optimize_round] at h
  split at h
  · exact Except.noConfusion h
  · rename_i s1 hts
    obtain ⟨h1, h2⟩ := Prod.mk.inj (Except.ok.inj h)
    exact ⟨h1.symm.trans (tellStep_eq_ok _ _ _ _ _ hts), h2.symm.trans (by rw [h1])⟩

lemma optimize_session_eq_ok (opt : OptimizerState) (X : List (List ℚ)) (y : List ℚ)
    (fo : Except String Unit) (o1 : OptimizerState) (p : List ℚ)
    (h : optimize_session opt X y fo = .ok (o1, p)) :
    o1 = { opt with toldXs := opt.toldXs ++ X,
                    toldYs := opt.toldYs ++ y.map (fun v => -v) } ∧ p = ask o1 := by
  simp only [optimize_session] at h
  split at h
  · exact Except.noConfusion h
  · rename_i s1 hts
    obtain ⟨h1, h2⟩ := Prod.mk.inj (Except.ok.inj h)
    exact ⟨h1.symm.trans (tellStep_eq_ok _ _ _ _ _ hts), h2.symm.trans (by rw [h1])⟩

lemma mem_putSession_self (tbl : List SessionItem) (it : SessionItem) :
    it ∈ putSession tbl it := by
  unfold putSession
  split
  · rename_i hany
    rw [List.any_eq_true] at hany
    obtain ⟨r, hr, hcond⟩ := hany
    have hfr : (fun r => if r.user_id = it.user_id ∧ r.time = it.time then it else r) r = it :=
      if_pos (of_decide_eq_true hcond)
    exact List.mem_map.mpr ⟨r, hr, hfr⟩
  · simp

lemma putSession_preserve (tbl : List SessionItem) (it r : SessionItem)
    (hr : r ∈ tbl) (hne : r.time ≠ it.time) : r ∈ putSession tbl it := by
  unfold putSession
  split
  · have hfr : (fun x => if x.user_id = it.user_id ∧ x.time = it.time then it else x) r = r :=
      if_neg (fun hc => hne hc.2)
    exact List.mem_map.mpr ⟨r, hr, hfr⟩
  · exact List.mem_append_left _ hr

lemma putSession_keys (tbl : List SessionItem) (it r0 : SessionItem) (hr : r0 ∈ tbl) :
    ∃ r1, r1 ∈ putSession tbl it ∧ r1.user_id = r0.user_id ∧ r1.time = r0.time := by
  unfold putSession
  split
  · by_cases hc : r0.user_id = it.user_id ∧ r0.time = it.time
    · refine ⟨it, ?_, hc.1.symm, hc.2.symm⟩
      have hfr : (fun x => if x.user_id = it.user_id ∧ x.time = it.time then it else x) r0 = it :=
        if_pos hc
      exact List.mem_map.mpr ⟨r0, hr, hfr⟩
    · refine ⟨r0, ?_, rfl, rfl⟩
      have hfr : (fun x => if x.user_id = it.user_id ∧ x.time = it.time then it else x) r0 = r0 :=
        if_neg hc
      exact List.mem_map.mpr ⟨r0, hr, hfr⟩
  · exact ⟨r0, List.mem_append_left _ hr, rfl, rfl⟩

lemma putSession_fresh (tbl : List SessionItem) (it : SessionItem)
    (h : ∀ r ∈ tbl, ¬ (r.user_id = it.user_id ∧ r.time = it.time)) :
    putSession tbl it = tbl ++ [it] := by
  unfold putSession
  have hne : ¬ (tbl.any (fun r => r.user_id = it.user_id ∧ r.time = it.time) = true) := by
    rw [List.any_eq_true]
    rintro ⟨r, hr, hc⟩
    exact h r hr (of_decide_eq_true hc)
  rw [if_neg hne]

lemma filterMap_roundGet_length (it : RoundItem) (cols : List String) :
    (cols.filterMap (roundGet it)).length =
      (cols.filter (fun c => (roundGet it c).isSome)).length := by
  induction cols with
  | nil => rfl
  | cons c cs ih =>
    cases hc : roundGet it c with
    | none => simp [List.filterMap_cons, List.filter_cons, hc, ih]
    | some v => simp [List.filterMap_cons, List.filter_cons, hc, ih]

lemma round_ok_shape (tbl : List RoundItem) (uid : String) (fs : ℚ)
    (now now2 : String) (seed : ℕ) (fo : Except String Unit)
    (tr : List RoundItem) (resp : RoundResponse)
    (h : dynamo_round_optimizer tbl uid fs now now2 seed fo = .ok (tr, resp)) :
    ∃ s1 : OptimizerState,
      s1.dims = [.Continuous 15 60, .Continuous 3 20] ∧
      resp.work_time = (ask s1).headD 0 ∧
      resp.break_time = ((ask s1).drop 1).headD 0 := by
  simp only [dynamo_round_optimizer, mk_round] at h
  split at h
  · exact Except.noConfusion h
  · split at h
    · exact Except.noConfusion h
    · rename_i o1 p heq
      obtain ⟨hA, hB⟩ := Prod.mk.inj (Except.ok.inj h)
      obtain ⟨ho1, hp⟩ := optimize_round_eq_ok _ _ _ _ _ _ heq
      refine ⟨o1, ?_, ?_, ?_⟩
      · rw [ho1]
      · rw [← hB, hp]
      · rw [← hB, hp]

lemma session_ok_shape (stbl : List SessionItem) (uid : String) (fs : ℚ)
    (now now2 : String) (seed : ℕ) (fo : Except String Unit)
    (ts : List SessionItem) (resp : SessionResponse)
    (h : dynamo_session_optimizer stbl uid fs now now2 seed fo = .ok (ts, resp)) :
    ∃ (s1 : OptimizerState) (rc3 : ℚ),
      s1.dims = [.Continuous 60 480, .Continuous 10 60, .Integer 1 10] ∧
      rc3 = ((ask s1).drop 2).headD 0 ∧
      resp.total_work_time = (ask s1).headD 0 ∧
      resp.break_time = ((ask s1).drop 1).headD 0 ∧
      resp.round_count = pyInt rc3 ∧
      ∃ it, it ∈ ts ∧ it.time = now2 ∧ it.round_count = some rc3 := by
  simp only [dynamo_session_optimizer, mk_session] at h
  split at h
  · exact Except.noConfusion h
  · rename_i o1 p heq
    obtain ⟨hA, hB⟩ := Prod.mk.inj (Except.ok.inj h)
    obtain ⟨ho1, hp⟩ := optimize_session_eq_ok _ _ _ _ _ _ heq
    refine ⟨o1, (p.drop 2).headD 0, ?_, ?_, ?_, ?_, ?_, ?_⟩
    · rw [ho1]
    · rw [hp]
    · rw [← hB, hp]
    · rw [← hB, hp]
    · rw [← hB]
    · refine ⟨{ user_id := uid, time := now2, total_work_time := some (p.headD 0),
                break_time := some ((p.drop 1).headD 0),
                round_count := some ((p.drop 2).headD 0),
                avg_focus_score := none, timestamp := none }, ?_, rfl, rfl⟩
      rw [← hA]
      exact mem_putSession_self _ _

/-! Claim theorems. -/

/-- Claim C1: in both the round and session scopes, the objective values
handed to the surrogate model (the values told to the optimizer) are the
element-wise negations of the caller-supplied focus scores, while the value
returned to the caller is the raw proposal produced by `ask`, with no sign
transformation applied at the external interface. -/
theorem c1_objective_sign_flip_internal :
    ∀ (opt : OptimizerState) (X : List (List ℚ)) (y : List ℚ),
      optimize_round opt X y (.ok ()) =
        .ok ({ opt with toldXs := opt.toldXs ++ X,
                        toldYs := opt.toldYs ++ y.map (fun v => -v) },
             ask { opt with toldXs := opt.toldXs ++ X,
                            toldYs := opt.toldYs ++ y.map (fun v => -v) })
      ∧ optimize_session opt X y (.ok ()) =
        .ok ({ opt with toldXs := opt.toldXs ++ X,
                        toldYs := opt.toldYs ++ y.map (fun v => -v) },
             ask { opt with toldXs := opt.toldXs ++ X,
                            toldYs := opt.toldYs ++ y.map (fun v => -v) }) := by
  intro opt X y
  constructor
  · simp only [optimize_round, tellStep_ok]
  · simp only [optimize_session, tellStep_ok]

/-- Claim C2: the scope registry maps the name `round` to exactly the
2-dimensional space `[Continuous(15,60), Continuous(3,20)]` and the name
`session` to exactly `[Continuous(60,480), Continuous(10,60), Integer(1,10)]`,
with the `n_initial_points=10` budget and an empty history, identically for
every construction (the output field names are carried by the
`RoundResponse` and `SessionResponse` record fields). -/
theorem c2_scope_registry :
    ∀ seed : ℕ,
      mkBayesianOptimizer "round" seed =
        .ok { dims := [.Continuous 15 60, .Continuous 3 20],
              nInitialPoints := 10, toldXs := [], toldYs := [], seed := seed }
      ∧ mkBayesianOptimizer "session" seed =
        .ok { dims := [.Continuous 60 480, .Continuous 10 60, .Integer 1 10],
              nInitialPoints := 10, toldXs := [], toldYs := [], seed := seed } :=
  fun _ => ⟨rfl, rfl⟩

/-- Claim C3 (code bug): the round DynamoDB endpoint raises on an empty
history — the branch for a user with no stored rows evaluates
`latest_data.get(...)` on the empty Python list and fails with
`AttributeError`, for every user, score and seed, contradicting the claim
that fewer than 10 prior observations never raise. -/
theorem c3_empty_history_raises :
    ∀ (uid : String) (fs : ℚ) (now now2 : String) (seed : ℕ)
      (fo : Except String Unit),
      dynamo_round_optimizer [] uid fs now now2 seed fo =
        .error "AttributeError: list object has no attribute get" :=
  fun _ _ _ _ _ _ => rfl

/-- Claim C4 counterexample: with ten told observations (so the surrogate
fit runs) and a diverging fit, `optimize_round` returns the wrapped error to
the caller instead of falling back to a random draw. -/
theorem c4_counterexample :
    optimize_round
      { dims := [.Continuous 15 60, .Continuous 3 20], nInitialPoints := 10,
        toldXs := [], toldYs := [], seed := 0 }
      (List.replicate 10 [30, 10]) (List.replicate 10 50) (.error "FitError")
      = .error "round optimization failed: FitError" := rfl

/-- Claim C4 (amended): if the surrogate fit diverges during a
propose/optimize call, both optimizer methods catch the exception and
re-raise it wrapped, so the fit error is propagated to the caller and no
random-draw fallback occurs at this layer. -/
theorem c4_amended_fit_error_propagates :
    ∀ (opt : OptimizerState) (X : List (List ℚ)) (y : List ℚ) (e : String),
      opt.nInitialPoints ≤ opt.toldXs.length + X.length →
      optimize_round opt X y (.error e) =
        .error ("round optimization failed: " ++ e)
      ∧ optimize_session opt X y (.error e) =
        .error ("session optimization failed: " ++ e) := by
  intro opt X y e h
  constructor
  · simp only [optimize_round, tellStep]
    rw [if_pos (by simpa using h)]
  · simp only [optimize_session, tellStep]
    rw [if_pos (by simpa using h)]

theorem c4_amended_witness :
    optimize_round
      { dims := [.Continuous 15 60, .Continuous 3 20], nInitialPoints := 10,
        toldXs := List.replicate 10 [30, 10], toldYs := List.replicate 10 (-50),
        seed := 0 } [] [] (.error "FitError")
      = .error ("round optimization failed: " ++ "FitError")
    ∧ optimize_session
      { dims := [.Continuous 15 60, .Continuous 3 20], nInitialPoints := 10,
        toldXs := List.replicate 10 [30, 10], toldYs := List.replicate 10 (-50),
        seed := 0 } [] [] (.error "FitError")
      = .error ("session optimization failed: " ++ "FitError") :=
  c4_amended_fit_error_propagates _ [] [] "FitError" (by simp)

/-- Concrete pending round proposal row used in the concrete-input
theorems. -/
def row0 : RoundItem :=
  { user_id := "u", time := "t0", work_time := some 30, break_time := some 10,
    focus_score := none, timestamp := none }

/-- Concrete pending session proposal row. -/
def srow0 : SessionItem :=
  { user_id := "u", time := "t0", total_work_time := some 100,
    break_time := some 20, round_count := some 4,
    avg_focus_score := none, timestamp := none }

/-- Result table of the round endpoint run on `[row0]` with seed 0. -/
def c5RoundTable : List RoundItem :=
  [row0,
   { user_id := "u", time := "t2", work_time := some (31035 / 2048),
     break_time := some (241733 / 32768), focus_score := none, timestamp := none }]

/-- Result table of the session endpoint run on `[srow0]` with seed 0. -/
def c5SessionTable : List SessionItem :=
  [{ user_id := "u", time := "t0", total_work_time := some 100,
     break_time := some 20, round_count := some 4,
     avg_focus_score := some 80, timestamp := none },
   { user_id := "u", time := "t2", total_work_time := some (31455 / 512),
     break_time := some (374765 / 16384), round_count := some 2,
     avg_focus_score := none, timestamp := none }]

/-- Claim C5: every proposal returned by the two endpoints has each
coordinate within its dimension bounds (`work_time ∈ [15,60]`,
`break_time ∈ [3,20]` for the round scope; `total_work_time ∈ [60,480]`,
`break_time ∈ [10,60]`, `round_count ∈ [1,10]` for the session scope), and
the integer-typed `round_count` coordinate is an exact integer: the stored
proposal coordinate equals the integer returned in the response. -/
theorem c5_proposals_in_bounds :
    ∀ (tbl : List RoundItem) (stbl : List SessionItem) (uid : String) (fs : ℚ)
      (now now2 : String) (seed : ℕ) (fo : Except String Unit),
      (∀ (tr : List RoundItem) (resp : RoundResponse),
        dynamo_round_optimizer tbl uid fs now now2 seed fo = .ok (tr, resp) →
        15 ≤ resp.work_time ∧ resp.work_time ≤ 60 ∧
        3 ≤ resp.break_time ∧ resp.break_time ≤ 20)
      ∧ (∀ (ts : List SessionItem) (resp : SessionResponse),
        dynamo_session_optimizer stbl uid fs now now2 seed fo = .ok (ts, resp) →
        60 ≤ resp.total_work_time ∧ resp.total_work_time ≤ 480 ∧
        10 ≤ resp.break_time ∧ resp.break_time ≤ 60 ∧
        1 ≤ resp.round_count ∧ resp.round_count ≤ 10 ∧
        ∃ it, it ∈ ts ∧ it.time = now2 ∧
          it.round_count = some ((resp.round_count : ℤ) : ℚ)) := by
  intro tbl stbl uid fs now now2 seed fo
  constructor
  · intro tr resp h
    obtain ⟨s1, hd, hw, hb⟩ := round_ok_shape _ _ _ _ _ _ _ _ _ h
    obtain ⟨a, b, hab, h1, h2, h3, h4⟩ := ask_round_shape s1 hd
    rw [hw, hb, hab]
    exact ⟨h1, h2, h3, h4⟩
  · intro ts resp h
    obtain ⟨s1, rc3, hd, hrc3, htw, hbk, hrc, it0, hit, htime, hcount⟩ :=
      session_ok_shape _ _ _ _ _ _ _ _ _ h
    obtain ⟨a, b, z, hab, h1, h2, h3, h4, h5, h6⟩ := ask_session_shape s1 hd
    have hz : rc3 = ((z : ℤ) : ℚ) := by rw [hrc3, hab]; rfl
    have hpz : resp.round_count = z := by rw [hrc, hz]; exact pyInt_intCast z
    refine ⟨?_, ?_, ?_, ?_, ?_, ?_, ?_⟩
    · rw [htw, hab]; exact h1
    · rw [htw, hab]; exact h2
    · rw [hbk, hab]; exact h3
    · rw [hbk, hab]; exact h4
    · rw [hpz]; exact h5
    · rw [hpz]; exact h6
    · exact ⟨it0, hit, htime, by rw [hcount, hpz, hz]⟩

theorem c5_witness :
    (15 ≤ ((31035 : ℚ) / 2048) ∧ ((31035 : ℚ) / 2048) ≤ 60 ∧
      3 ≤ ((241733 : ℚ) / 32768) ∧ ((241733 : ℚ) / 32768) ≤ 20)
    ∧ (60 ≤ ((31455 : ℚ) / 512) ∧ ((31455 : ℚ) / 512) ≤ 480 ∧
      10 ≤ ((374765 : ℚ) / 16384) ∧ ((374765 : ℚ) / 16384) ≤ 60 ∧
      1 ≤ (2 : ℤ) ∧ (2 : ℤ) ≤ 10 ∧
      ∃ it, it ∈ c5SessionTable ∧ it.time = "t2" ∧
        it.round_count = some (((2 : ℤ) : ℚ))) :=
  ⟨(c5_proposals_in_bounds [row0] [srow0] "u" 80 "tX" "t2" 0 (.ok ())).1
      c5RoundTable { work_time := 31035 / 2048, break_time := 241733 / 32768 }
      (by simp [dynamo_round_optimizer, row0, c5RoundTable, queryRound, chosenRows, roundGet,
            mkBayesianOptimizer, optimize_round, tellStep, ask, randomPoint, randomCoord,
            unitFrac, lcgNext, putRound, modelCandidate, clipPoint]
          norm_num),
   (c5_proposals_in_bounds [row0] [srow0] "u" 80 "tX" "t2" 0 (.ok ())).2
      c5SessionTable
      { total_work_time := 31455 / 512, break_time := 374765 / 16384, round_count := 2 }
      (by simp [dynamo_session_optimizer, srow0, c5SessionTable, querySession,
            chosenSessionRows, sessionGet, mkBayesianOptimizer, optimize_session, tellStep,
            ask, randomPoint, randomCoord, unitFrac, lcgNext, putSession, modelCandidate,
            clipPoint]
          norm_num [pyInt])⟩

/-- Claim C6 (code bug): on the round DynamoDB endpoint with a non-empty
history, the submitted focus score is silently discarded — the write that
should record it is nested inside the empty-history branch, so the request
succeeds, stores a new proposal row (the table grows to 2 rows), yet no row
of the resulting table carries the submitted score 80. -/
theorem c6_focus_score_silently_dropped :
    Except.map
        (fun r => ((r.1.filter (fun it => decide (it.focus_score = some (80 : ℚ)))).length,
                   r.1.length))
        (dynamo_round_optimizer [row0] "u" 80 "tX" "t2" 0 (.ok ()))
      = .ok (0, 2) := rfl

/-- Claim C7 counterexample: running the session endpoint over a store
holding the single pending row `srow0` (whose `avg_focus_score` is absent)
overwrites that existing `(user_id, time)` row in place — afterwards the row
stored under the key `("u", "t0")` carries `avg_focus_score = 80`. -/
theorem c7_counterexample :
    Except.map (fun r => r.1.filter (fun it => decide (it.time = "t0")))
        (dynamo_session_optimizer [srow0] "u" 80 "tX" "t2" 0 (.ok ()))
      = .ok [{ user_id := "u", time := "t0", total_work_time := some 100,
               break_time := some 20, round_count := some 4,
               avg_focus_score := some 80, timestamp := none }]
    ∧ srow0.avg_focus_score = none :=
  ⟨rfl, rfl⟩

/-- Claim C7 (amended): the managed-store backend never deletes a row
(every existing `(user_id, time)` key is still present after a put) and a
put under a fresh key appends; but recording an incoming objective value
reuses the latest existing row's timestamp, overwriting that row in place
with the objective attached — only the new-proposal write uses a fresh
timestamp key. -/
theorem c7_amended_overwrite_on_objective :
    (∀ (tbl : List SessionItem) (it r0 : SessionItem), r0 ∈ tbl →
      ∃ r1, r1 ∈ putSession tbl it ∧ r1.user_id = r0.user_id ∧ r1.time = r0.time)
    ∧ (∀ (tbl : List SessionItem) (it : SessionItem),
      (∀ r ∈ tbl, ¬ (r.user_id = it.user_id ∧ r.time = it.time)) →
      putSession tbl it = tbl ++ [it])
    ∧ (∀ (tbl : List SessionItem) (uid : String) (fs : ℚ) (now now2 : String)
        (seed : ℕ) (fo : Except String Unit) (L : SessionItem)
        (ts : List SessionItem) (resp : SessionResponse),
      (querySession tbl uid).getLast? = some L → now2 ≠ L.time →
      dynamo_session_optimizer tbl uid fs now now2 seed fo = .ok (ts, resp) →
      ∃ it, it ∈ ts ∧ it.user_id = uid ∧ it.time = L.time ∧
        it.avg_focus_score = some fs) := by
  refine ⟨putSession_keys, putSession_fresh, ?_⟩
  intro tbl uid fs now now2 seed fo L ts resp hL hne h
  simp only [dynamo_session_optimizer, mk_session, hL, Option.bind] at h
  split at h
  · exact Except.noConfusion h
  · rename_i o1 p heq
    obtain ⟨hA, hB⟩ := Prod.mk.inj (Except.ok.inj h)
    refine ⟨{ user_id := uid, time := L.time,
              total_work_time := L.total_work_time, break_time := L.break_time,
              round_count := L.round_count, avg_focus_score := some fs,
              timestamp := none }, ?_, rfl, rfl, rfl⟩
    rw [← hA]
    exact putSession_preserve _ _ _ (mem_putSession_self _ _) (fun hc => hne hc.symm)

theorem c7_amended_witness :
    (∃ r1, r1 ∈ putSession [srow0]
        { user_id := "u", time := "t0", total_work_time := none,
          break_time := none, round_count := none,
          avg_focus_score := some 55, timestamp := none } ∧
      r1.user_id = srow0.user_id ∧ r1.time = srow0.time)
    ∧ putSession [srow0]
        { user_id := "u", time := "t9", total_work_time := none,
          break_time := none, round_count := none,
          avg_focus_score := some 55, timestamp := none }
      = [srow0] ++
        [{ user_id := "u", time := "t9", total_work_time := none,
           break_time := none, round_count := none,
           avg_focus_score := some 55, timestamp := none }]
    ∧ (∃ it, it ∈ c5SessionTable ∧ it.user_id = "u" ∧ it.time = "t0" ∧
        it.avg_focus_score = some (80 : ℚ)) :=
  ⟨(c7_amended_overwrite_on_objective).1 [srow0] _ srow0 (by simp),
   (c7_amended_overwrite_on_objective).2.1 [srow0] _ (by decide),
   (c7_amended_overwrite_on_objective).2.2 [srow0] "u" 80 "tX" "t2" 0 (.ok ()) srow0
      c5SessionTable
      { total_work_time := 31455 / 512, break_time := 374765 / 16384, round_count := 2 }
      rfl (by decide)
      (by simp [dynamo_session_optimizer, srow0, c5SessionTable, querySession,
            chosenSessionRows, sessionGet, mkBayesianOptimizer, optimize_session, tellStep,
            ask, randomPoint, randomCoord, unitFrac, lcgNext, putSession, modelCandidate,
            clipPoint]
          norm_num [pyInt])⟩

/-- Claim C8: constructing an optimizer for any scope name other than
`round` or `session` fails with the unknown-scope error (the wrapped
`ValueError`), and the construction leaves both stores untouched. -/
theorem c8_unknown_scope_no_mutation :
    ∀ (target : String) (seed : ℕ) (rt : List RoundItem) (st : List SessionItem),
      target ≠ "round" → target ≠ "session" →
      (constructOptimizer target seed rt st).1 =
        .error (initFailMsg (unknownScopeMsg target))
      ∧ (constructOptimizer target seed rt st).2.1 = rt
      ∧ (constructOptimizer target seed rt st).2.2 = st := by
  intro t seed rt st h1 h2
  refine ⟨?_, rfl, rfl⟩
  simp [constructOptimizer, mkBayesianOptimizer, h1, h2]

theorem c8_witness :
    (constructOptimizer "weekly" 0 [] []).1 =
      .error (initFailMsg (unknownScopeMsg "weekly"))
    ∧ (constructOptimizer "weekly" 0 [] []).2.1 = ([] : List RoundItem)
    ∧ (constructOptimizer "weekly" 0 [] []).2.2 = ([] : List SessionItem) :=
  c8_unknown_scope_no_mutation "weekly" 0 [] [] (by decide) (by decide)

/-- Claim C9: the proposal pipeline is deterministic — two optimizer
instances constructed for the same scope name with the same RNG seed, told
the same history, return identical results (in the bootstrap phase and,
since the history length is unrestricted, equally in the model-based
acquisition phase). -/
theorem c9_deterministic_replay :
    ∀ (target : String) (seed : ℕ) (s1 s2 : OptimizerState)
      (X : List (List ℚ)) (y : List ℚ) (fo : Except String Unit),
      mkBayesianOptimizer target seed = .ok s1 →
      mkBayesianOptimizer target seed = .ok s2 →
      optimize_round s1 X y fo = optimize_round s2 X y fo
      ∧ optimize_session s1 X y fo = optimize_session s2 X y fo := by
  intro t seed s1 s2 X y fo h1 h2
  have hs : s1 = s2 := Except.ok.inj (h1.symm.trans h2)
  rw [hs]
  exact ⟨rfl, rfl⟩

theorem c9_witness :
    optimize_round
      { dims := [.Continuous 15 60, .Continuous 3 20], nInitialPoints := 10,
        toldXs := [], toldYs := [], seed := 0 } [[30, 10]] [50] (.ok ()) =
      optimize_round
        { dims := [.Continuous 15 60, .Continuous 3 20], nInitialPoints := 10,
          toldXs := [], toldYs := [], seed := 0 } [[30, 10]] [50] (.ok ())
    ∧ optimize_session
      { dims := [.Continuous 15 60, .Continuous 3 20], nInitialPoints := 10,
        toldXs := [], toldYs := [], seed := 0 } [[30, 10]] [50] (.ok ()) =
      optimize_session
        { dims := [.Continuous 15 60, .Continuous 3 20], nInitialPoints := 10,
          toldXs := [], toldYs := [], seed := 0 } [[30, 10]] [50] (.ok ()) :=
  c9_deterministic_replay "round" 0 _ _ [[30, 10]] [50] (.ok ()) rfl rfl

/-- Round row with none of the numeric columns, for the column-subset
theorems. -/
def rowBare : RoundItem :=
  { user_id := "u", time := "t0", work_time := none, break_time := none,
    focus_score := none, timestamp := some "x" }

/-- Round row holding only `work_time`, for the column-subset theorems. -/
def rowPartial : RoundItem :=
  { user_id := "u", time := "t1", work_time := some 25, break_time := none,
    focus_score := none, timestamp := none }

/-- Claim C10: a stored row containing none of the requested columns is
omitted from the chosen-data result; a row containing only some of them
yields a shortened row (exactly the present columns, never padded); and
for the same user and store, the list fetched for the input columns and the
list fetched for the objective column can have different lengths. -/
theorem c10_column_subset_behavior :
    (∀ (pre post : List RoundItem) (it : RoundItem) (cols : List String),
      cols.filterMap (roundGet it) = [] →
      chosenRows (pre ++ it :: post) cols = chosenRows (pre ++ post) cols)
    ∧ (∀ (items : List RoundItem) (it : RoundItem) (cols : List String),
      it ∈ items → cols.filterMap (roundGet it) ≠ [] →
      cols.filterMap (roundGet it) ∈ chosenRows items cols ∧
      (cols.filterMap (roundGet it)).length =
        (cols.filter (fun c => (roundGet it c).isSome)).length)
    ∧ make_chosen_data_list [row0] "u" ["work_time", "break_time"] = .rows [[30, 10]]
    ∧ make_chosen_data_list [row0] "u" ["focus_score"] = .flat []
    ∧ make_chosen_session_data_list [srow0] "u" ["avg_focus_score"] = .flat [] := by
  refine ⟨?_, ?_, rfl, rfl, rfl⟩
  · intro pre post it cols h
    simp [chosenRows, h]
  · intro items it cols hmem hne
    refine ⟨List.mem_filter.mpr ⟨List.mem_map.mpr ⟨it, hmem, rfl⟩, ?_⟩,
      filterMap_roundGet_length it cols⟩
    simpa using hne

theorem c10_witness :
    chosenRows ([] ++ rowBare :: []) ["work_time"] = chosenRows ([] ++ []) ["work_time"]
    ∧ (["work_time", "break_time"].filterMap (roundGet rowPartial) ∈
        chosenRows [rowPartial] ["work_time", "break_time"]
      ∧ (["work_time", "break_time"].filterMap (roundGet rowPartial)).length =
        (["work_time", "break_time"].filter
          (fun c => (roundGet rowPartial c).isSome)).length) :=
  ⟨(c10_column_subset_behavior).1 [] [] rowBare ["work_time"] rfl,
   (c10_column_subset_behavior).2.1 [rowPartial] rowPartial
      ["work_time", "break_time"] (by simp) (by decide)⟩

end SelfPomodoro
